import Mathlib

set_option maxRecDepth 10000

/-
  Formal model of TJUH (Tiny Joystick USB Host).

  Shallow embedding of the report classifier/decoder (src/tjuh_parse.c),
  the device registry (src/tjuh_parse.c) and the transfer buffer pool
  (src/tjuh.c), together with theorems about the documented behaviour.

  Conventions:
  - a raw report buffer is a function from byte index to byte value;
  - the packed C struct tjuh_gamepad_report_t (include/tjuh.h) is a Lean
    structure holding its bit-fields directly; writing one of its aliased
    whole bytes decomposes the byte into the bit-fields, and reading an
    aliased whole byte recomposes it;
  - C functions of shape bool f(..., out*) become Option-valued functions;
  - fixed-size C arrays (registry, buffer-pool owners) become lists.
-/

/-- A raw report buffer: the byte stored at each index. -/
abbrev Buf := Nat → Nat

/-- The first `n + 1` entries of the buffer are genuine uint8 values. -/
abbrev ByteBufUpTo (data : Buf) (n : Nat) : Prop :=
  ∀ i, i ≤ n → data i < 256

def bitVal (b : Bool) : Nat := if b then 1 else 0

/-- tjuh_gamepad_report_t from include/tjuh.h: four 8-bit axes, a 4-bit
dpad packed with the four face buttons into one byte, eight
shoulder/trigger/meta button bits in the next byte, system/extra plus six
reserved bits in the next, and one reserved byte. -/
structure Report where
  x : Nat
  y : Nat
  z : Nat
  rz : Nat
  dpad : Nat
  square : Bool
  cross : Bool
  circle : Bool
  triangle : Bool
  l1 : Bool
  r1 : Bool
  l2 : Bool
  r2 : Bool
  select : Bool
  start : Bool
  l3 : Bool
  r3 : Bool
  system : Bool
  extra : Bool
  reservedBits : Nat
  reservedByte : Nat
deriving DecidableEq

/-- The all-zero report the host passes into tjuh_parse_report
(s_zero_report in src/tjuh.c). -/
def zeroReport : Report :=
  ⟨0, 0, 0, 0, 0, false, false, false, false, false, false, false, false,
   false, false, false, false, false, false, 0, 0⟩

/-- Reading the union byte dpad_buttons_byte: dpad in bits 0-3, square,
cross, circle, triangle in bits 4-7. -/
def Report.dpadButtonsByte (r : Report) : Nat :=
  r.dpad % 16 + 16 * bitVal r.square + 32 * bitVal r.cross +
    64 * bitVal r.circle + 128 * bitVal r.triangle

/-- Reading the union byte trigger_buttons_byte: l1,r1,l2,r2,select,start,
l3,r3 in bits 0-7. -/
def Report.triggerButtonsByte (r : Report) : Nat :=
  bitVal r.l1 + 2 * bitVal r.r1 + 4 * bitVal r.l2 + 8 * bitVal r.r2 +
    16 * bitVal r.select + 32 * bitVal r.start + 64 * bitVal r.l3 +
    128 * bitVal r.r3

/-- Reading the union byte extra_buttons_byte: system bit 0, extra bit 1,
six reserved bits. -/
def Report.extraButtonsByte (r : Report) : Nat :=
  bitVal r.system + 2 * bitVal r.extra + 4 * (r.reservedBits % 64)

/-- Writing the union byte dpad_buttons_byte (assigns all aliased
bit-fields). -/
def Report.withDpadButtonsByte (r : Report) (v : Nat) : Report :=
  { r with dpad := v % 16, square := v.testBit 4, cross := v.testBit 5,
           circle := v.testBit 6, triangle := v.testBit 7 }

/-- Writing the union byte trigger_buttons_byte. -/
def Report.withTriggerButtonsByte (r : Report) (v : Nat) : Report :=
  { r with l1 := v.testBit 0, r1 := v.testBit 1, l2 := v.testBit 2,
           r2 := v.testBit 3, select := v.testBit 4, start := v.testBit 5,
           l3 := v.testBit 6, r3 := v.testBit 7 }

/-- Writing the union byte extra_buttons_byte. -/
def Report.withExtraButtonsByte (r : Report) (v : Nat) : Report :=
  { r with system := v.testBit 0, extra := v.testBit 1,
           reservedBits := v / 4 % 64 }

/- ---------------------------------------------------------------------
   Known vendor/product IDs (src/tjuh_parse.c)
   --------------------------------------------------------------------- -/

def VID_SONY : Nat := 0x054C
def PID_DS4_V1 : Nat := 0x05C4
def PID_DS4_V2 : Nat := 0x09CC
def PID_DUALSENSE : Nat := 0x0CE6
def PID_DUALSENSE_EDGE : Nat := 0x0DF2
def VID_NINTENDO : Nat := 0x057E

/- ---------------------------------------------------------------------
   Axis conversion helpers (int16_to_uint8, int16_to_uint8_inv)
   --------------------------------------------------------------------- -/

/-- Reinterpret a 16-bit word as a signed int16 value (the effect of the
memcpy into an int16_t in parse_xbox360). -/
def int16_of_word (w : Nat) : Int :=
  if w < 0x8000 then (w : Int) else (w : Int) - 0x10000

/-- Assemble the little-endian int16 read at two consecutive buffer
bytes. -/
def int16_of_le (lo hi : Nat) : Int :=
  int16_of_word (lo % 256 + 256 * (hi % 256))

/-- static inline uint8_t int16_to_uint8(int val):
val += 0x8000; return (uint8_t)(val >> 8). -/
def int16_to_uint8 (val : Int) : Nat :=
  ((val + 0x8000).toNat >>> 8) % 256

/-- static inline uint8_t int16_to_uint8_inv(int val):
val += 0x8000; return (uint8_t)(0xFF - (val >> 8)). -/
def int16_to_uint8_inv (val : Int) : Nat :=
  (255 - ((val + 0x8000).toNat >>> 8) % 256) % 256

/- ---------------------------------------------------------------------
   Xbox 360 parsing
   --------------------------------------------------------------------- -/

/-- The switch statement of parse_xbox360_dpad_buttons mapping the low
nibble of the hat/button byte to a hat value (8 = released). -/
def xbox360_dpad_table (dpad_bits : Nat) : Nat :=
  match dpad_bits with
  | 0x00 => 8
  | 0x01 => 0
  | 0x09 => 1
  | 0x08 => 2
  | 0x0A => 3
  | 0x02 => 4
  | 0x06 => 5
  | 0x04 => 6
  | 0x05 => 7
  | _ => 8

def parse_xbox360_dpad_buttons (byte : Nat) (rpt : Report) : Report :=
  { rpt with dpad := xbox360_dpad_table (byte % 16),
             start := byte.testBit 4, select := byte.testBit 5,
             l3 := byte.testBit 6, r3 := byte.testBit 7 }

def parse_xbox360_buttons (byte : Nat) (rpt : Report) : Report :=
  { rpt with l1 := byte.testBit 0, r1 := byte.testBit 1,
             system := byte.testBit 2, cross := byte.testBit 4,
             circle := byte.testBit 5, square := byte.testBit 6,
             triangle := byte.testBit 7 }

def parse_xbox360 (data : Buf) (len : Nat) (rpt : Report) : Report :=
  let rpt := parse_xbox360_dpad_buttons (data 2) rpt
  let rpt := parse_xbox360_buttons (data 3) rpt
  let rpt := { rpt with l2 := decide (128 < data 4),
                        r2 := decide (128 < data 5) }
  let x_val := int16_of_le (data 6) (data 7)
  let y_val := int16_of_le (data 8) (data 9)
  let z_val := int16_of_le (data 10) (data 11)
  let rz_val := int16_of_le (data 12) (data 13)
  { rpt with x := int16_to_uint8 x_val,
             y := int16_to_uint8_inv y_val,
             z := int16_to_uint8 z_val,
             rz := int16_to_uint8_inv rz_val }

/- ---------------------------------------------------------------------
   Sony DualSense (PS5) parsing
   --------------------------------------------------------------------- -/

/-- parse_sony_dualsense: skips the report ID byte, copies the 4 axis
bytes, then after skipping 2 analog-trigger bytes and 1 timestamp byte
copies the three button bytes (indices 8, 9, 10 of the raw report). -/
def parse_sony_dualsense (data : Buf) (len : Nat) (rpt : Report) : Report :=
  ((({ rpt with x := data 1, y := data 2, z := data 3,
                rz := data 4 }).withDpadButtonsByte
      (data 8)).withTriggerButtonsByte (data 9)).withExtraButtonsByte
    (data 10)

/- ---------------------------------------------------------------------
   Sony DualShock 4 parsing
   --------------------------------------------------------------------- -/

/-- parse_sony_ds4: skips the report ID byte and memcpys the whole 8-byte
report struct from the following bytes. -/
def parse_sony_ds4 (data : Buf) (len : Nat) (rpt : Report) : Report :=
  { ((({ rpt with x := data 1, y := data 2, z := data 3,
                  rz := data 4 }).withDpadButtonsByte
        (data 5)).withTriggerButtonsByte (data 6)).withExtraButtonsByte
      (data 7) with reservedByte := data 8 }

/- ---------------------------------------------------------------------
   Nintendo Switch Pro Controller — full report (0x30)
   --------------------------------------------------------------------- -/

def parse_switch_pro_full (data : Buf) (len : Nat) (rpt : Report) : Report :=
  if len < 12 then rpt
  else
    let btn_r := data 3
    let btn_m := data 4
    let btn_l := data 5
    let up := btn_l.testBit 1
    let down := btn_l.testBit 0
    let left := btn_l.testBit 3
    let right := btn_l.testBit 2
    let d : Nat :=
      if up && right then 1
      else if down && right then 3
      else if down && left then 5
      else if up && left then 7
      else if up then 0
      else if right then 2
      else if down then 4
      else if left then 6
      else 8
    let lx := (data 6 ||| ((data 7 &&& 0x0F) <<< 8)) % 65536
    let ly := ((data 7 >>> 4) ||| (data 8 <<< 4)) % 65536
    let rx := (data 9 ||| ((data 10 &&& 0x0F) <<< 8)) % 65536
    let ry := ((data 10 >>> 4) ||| (data 11 <<< 4)) % 65536
    { rpt with
      cross := btn_r.testBit 2, circle := btn_r.testBit 3,
      square := btn_r.testBit 0, triangle := btn_r.testBit 1,
      r1 := btn_r.testBit 6, r2 := btn_r.testBit 7,
      l1 := btn_l.testBit 6, l2 := btn_l.testBit 7,
      select := btn_m.testBit 0, start := btn_m.testBit 1,
      r3 := btn_m.testBit 2, l3 := btn_m.testBit 3,
      system := btn_m.testBit 4, extra := btn_m.testBit 5,
      dpad := d,
      x := (lx >>> 4) % 256,
      y := (255 - (ly >>> 4) % 256) % 256,
      z := (rx >>> 4) % 256,
      rz := (255 - (ry >>> 4) % 256) % 256 }

/- ---------------------------------------------------------------------
   Nintendo Switch Pro Controller — simple report (0x3F)
   --------------------------------------------------------------------- -/

def parse_switch_pro_simple (data : Buf) (len : Nat) (rpt : Report) : Report :=
  if len < 8 then rpt
  else
    let btn1 := data 1
    let btn2 := data 2
    { rpt with
      square := btn1.testBit 0, cross := btn1.testBit 1,
      circle := btn1.testBit 2, triangle := btn1.testBit 3,
      l1 := btn1.testBit 4, r1 := btn1.testBit 5,
      l2 := btn1.testBit 6, r2 := btn1.testBit 7,
      select := btn2.testBit 0, start := btn2.testBit 1,
      l3 := btn2.testBit 2, r3 := btn2.testBit 3,
      system := btn2.testBit 4, extra := btn2.testBit 5,
      dpad := if 8 < data 3 then 8 else data 3,
      x := data 4, y := data 5, z := data 6, rz := data 7 }

/- ---------------------------------------------------------------------
   Nintendo Switch — dispatch by report ID
   --------------------------------------------------------------------- -/

def parse_switch (data : Buf) (len : Nat) (rpt : Report) : Option Report :=
  if len < 8 then none
  else if data 0 = 0x30 then some (parse_switch_pro_full data len rpt)
  else if data 0 = 0x3F then some (parse_switch_pro_simple data len rpt)
  else none

/- ---------------------------------------------------------------------
   Generic 8-byte gamepad
   --------------------------------------------------------------------- -/

def parse_generic_8byte (data : Buf) (len : Nat) (rpt : Report) : Report :=
  let bits5 := (data 5 >>> 4) &&& 0x0F
  let bits6h := (data 6 >>> 4) &&& 0x0F
  let bits6l := data 6 &&& 0x0F
  { rpt with
    rz := data 0, z := data 1, x := data 2, y := data 3,
    triangle := bits5.testBit 0, circle := bits5.testBit 1,
    cross := bits5.testBit 2, square := bits5.testBit 3,
    dpad := min (data 5 &&& 0x0F) 0x08,
    l3 := bits6h.testBit 0, r3 := bits6h.testBit 1,
    select := bits6h.testBit 2, start := bits6h.testBit 3,
    l1 := bits6l.testBit 0, r1 := bits6l.testBit 1,
    l2 := bits6l.testBit 2, r2 := bits6l.testBit 3 }

/- ---------------------------------------------------------------------
   Generic 3-byte gamepad
   --------------------------------------------------------------------- -/

def parse_generic_3byte (data : Buf) (len : Nat) (rpt : Report) : Report :=
  ({ rpt with x := data 0,
              y := data 1 }).withDpadButtonsByte
    (((data 2 <<< 4) ||| 0x08) % 256)

/- ---------------------------------------------------------------------
   Sony controller dispatch
   --------------------------------------------------------------------- -/

def parse_sony (pid : Nat) (data : Buf) (len : Nat) (rpt : Report) :
    Option Report :=
  if len < 10 ∨ data 0 ≠ 0x01 then none
  else if pid = PID_DUALSENSE ∨ pid = PID_DUALSENSE_EDGE then
    some (parse_sony_dualsense data len rpt)
  else
    some (parse_sony_ds4 data len rpt)

/- ---------------------------------------------------------------------
   Size-based fallback for unknown VID/PID
   --------------------------------------------------------------------- -/

/-- The plausibility loop of the catch-all branch: some byte among the
four that follow the report ID, and that lies inside the declared length,
is near center. -/
def any_centered (data : Buf) (actual_len : Nat) : Bool :=
  (List.range 4).any fun i =>
    decide (i + 1 < actual_len) && decide (96 ≤ data (i + 1)) &&
      decide (data (i + 1) ≤ 160)

/-- The catch-all tail of parse_by_endpoint_size: accept reports of
length ≥ 8 on endpoints of size ≥ 8 whose first byte is a plausible
report ID 1..4 and that have a near-center axis byte, and decode them
with the DualShock 4 layout (requires length ≥ 9). -/
def catch_all (data : Buf) (actual_len max_ep_size : Nat) (rpt : Report) :
    Option Report :=
  if 8 ≤ actual_len ∧ 8 ≤ max_ep_size then
    if 0x01 ≤ data 0 ∧ data 0 ≤ 0x04 then
      if any_centered data actual_len ∧ 9 ≤ actual_len then
        some (parse_sony_ds4 data actual_len rpt)
      else none
    else none
  else none

def parse_by_endpoint_size (data : Buf) (actual_len max_ep_size : Nat)
    (rpt : Report) : Option Report :=
  if max_ep_size = 8 ∧ actual_len = 8 then
    some (parse_generic_8byte data actual_len rpt)
  else if max_ep_size = 8 ∧ actual_len = 3 then
    some (parse_generic_3byte data actual_len rpt)
  else if max_ep_size = 32 ∧ actual_len = 20 then
    some (parse_xbox360 data actual_len rpt)
  else
    catch_all data actual_len max_ep_size rpt

/- ---------------------------------------------------------------------
   Device registry (src/tjuh_parse.c)
   --------------------------------------------------------------------- -/

def TJUH_MAX_DEVICES : Nat := 2

structure DevEntry where
  dev_addr : Nat
  vid : Nat
  pid : Nat
deriving DecidableEq

def emptyEntry : DevEntry := ⟨0, 0, 0⟩

/-- The s_devices array, entry i holding the slot for address i+1. -/
abbrev Registry := List DevEntry

def tjuh_parse_init_device (dev_addr vid pid : Nat) (s : Registry) :
    Bool × Registry :=
  if dev_addr = 0 ∨ dev_addr > TJUH_MAX_DEVICES then (false, s)
  else (true, s.set (dev_addr - 1) ⟨dev_addr, vid, pid⟩)

def tjuh_parse_free_device (dev_addr : Nat) (s : Registry) :
    Bool × Registry :=
  if dev_addr = 0 ∨ dev_addr > TJUH_MAX_DEVICES then (false, s)
  else (true, s.set (dev_addr - 1) emptyEntry)

/-- bool tjuh_parse_get_vid_pid: fails out of range or when the stored
vid is the 0 sentinel; otherwise yields the stored identity. -/
def tjuh_parse_get_vid_pid (dev_addr : Nat) (s : Registry) :
    Option (Nat × Nat) :=
  if dev_addr = 0 ∨ dev_addr > TJUH_MAX_DEVICES then none
  else if (s.getD (dev_addr - 1) emptyEntry).vid = 0 then none
  else some ((s.getD (dev_addr - 1) emptyEntry).vid,
             (s.getD (dev_addr - 1) emptyEntry).pid)

/-- The static get_vid_pid helper used by the dispatcher (same
availability condition). -/
def get_vid_pid (dev_addr : Nat) (s : Registry) : Option (Nat × Nat) :=
  if dev_addr = 0 ∨ dev_addr > TJUH_MAX_DEVICES then none
  else if (s.getD (dev_addr - 1) emptyEntry).vid = 0 then none
  else some ((s.getD (dev_addr - 1) emptyEntry).vid,
             (s.getD (dev_addr - 1) emptyEntry).pid)

/- ---------------------------------------------------------------------
   Main dispatch
   --------------------------------------------------------------------- -/

inductive tjuh_hint_t where
  | HINT_NONE
  | HINT_XBOX_ONE
  | HINT_SWITCH_PRO
deriving DecidableEq

def tjuh_parse_report (s : Registry) (dev_addr : Nat) (data : Buf)
    (actual_len max_ep_size : Nat) (report_out : Report)
    (hint : tjuh_hint_t) : Option Report :=
  if actual_len = 0 then none
  else if hint = tjuh_hint_t.HINT_XBOX_ONE then none
  else if hint = tjuh_hint_t.HINT_SWITCH_PRO then
    parse_switch data actual_len report_out
  else
    match get_vid_pid dev_addr s with
    | some (vid, pid) =>
      if vid = VID_SONY then parse_sony pid data actual_len report_out
      else if vid = VID_NINTENDO then
        parse_switch data actual_len report_out
      else parse_by_endpoint_size data actual_len max_ep_size report_out
    | none => parse_by_endpoint_size data actual_len max_ep_size report_out

/- ---------------------------------------------------------------------
   Transfer buffer pool (src/tjuh.c)
   --------------------------------------------------------------------- -/

def BUF_POOL_SIZE : Nat := 4

/-- buf_pool_alloc: scan the owner array for the first free (owner 0)
buffer, assign it to dev_addr and return its index; none when
exhausted. -/
def buf_pool_alloc (dev_addr : Nat) : List Nat → Option Nat × List Nat
  | [] => (none, [])
  | o :: rest =>
    if o = 0 then (some 0, dev_addr :: rest)
    else
      let r := buf_pool_alloc dev_addr rest
      (r.1.map (· + 1), o :: r.2)

/-- buf_pool_free: clear ownership on every buffer owned by dev_addr. -/
def buf_pool_free (dev_addr : Nat) (pool : List Nat) : List Nat :=
  pool.map (fun o => if o = dev_addr then 0 else o)

/- ---------------------------------------------------------------------
   Concrete fixtures
   --------------------------------------------------------------------- -/

/-- A registry with a DualSense registered at address 1. -/
def c1reg : Registry := [⟨1, VID_SONY, PID_DUALSENSE⟩, emptyEntry]

/-- A 10-byte DualSense-shaped report (report ID 0x01, everything else
near center), extended with the value 128 beyond the declared length. -/
def c1buf1 : Buf := fun i => if i = 0 then 0x01 else 128

/-- The same report bytes inside the declared length, but with the value
7 at index 10, one past the declared length. -/
def c1buf2 : Buf := fun i => if i = 0 then 0x01 else if i = 10 then 7 else 128

/- ---------------------------------------------------------------------
   Helper lemmas
   --------------------------------------------------------------------- -/

lemma recompose_dpad_byte : ∀ v < 256,
    v % 16 % 16 + 16 * bitVal (Nat.testBit v 4) + 32 * bitVal (Nat.testBit v 5) +
      64 * bitVal (Nat.testBit v 6) + 128 * bitVal (Nat.testBit v 7) = v := by
  decide

lemma recompose_trigger_byte : ∀ v < 256,
    bitVal (Nat.testBit v 0) + 2 * bitVal (Nat.testBit v 1) +
      4 * bitVal (Nat.testBit v 2) + 8 * bitVal (Nat.testBit v 3) +
      16 * bitVal (Nat.testBit v 4) + 32 * bitVal (Nat.testBit v 5) +
      64 * bitVal (Nat.testBit v 6) + 128 * bitVal (Nat.testBit v 7) = v := by
  decide

lemma recompose_extra_byte : ∀ v < 256,
    bitVal (Nat.testBit v 0) + 2 * bitVal (Nat.testBit v 1) +
      4 * (v / 4 % 64 % 64) = v := by
  decide

/- ---------------------------------------------------------------------
   Theorems
   --------------------------------------------------------------------- -/

/-- C3: for every slot whose hint is XboxOne, tjuh_parse_report returns
Unrecognized for every input byte buffer and every actual length; no
decoded report is ever produced for such a slot. -/
theorem C3_xbox_one_hint_unrecognized (s : Registry) (dev_addr : Nat)
    (data : Buf) (actual_len max_ep_size : Nat) (rpt : Report) :
    tjuh_parse_report s dev_addr data actual_len max_ep_size rpt
      tjuh_hint_t.HINT_XBOX_ONE = none := by
  by_cases h : actual_len = 0 <;> simp [tjuh_parse_report, h]

/-- C6: the Xbox-360 signed 16-bit little-endian axis conversion maps
0x0000 to 0x80, 0xFFFF to 0x7F, 0x7FFF to 0xFF and 0x8000 to 0x00, and
the inverted conversion used for the y and rz axes produces the mirror
value 0xFF minus that result for every 16-bit input. -/
theorem C6_int16_axis_conversion :
    int16_to_uint8 (int16_of_word 0x0000) = 0x80
  ∧ int16_to_uint8 (int16_of_word 0xFFFF) = 0x7F
  ∧ int16_to_uint8 (int16_of_word 0x7FFF) = 0xFF
  ∧ int16_to_uint8 (int16_of_word 0x8000) = 0x00
  ∧ (∀ w, w < 65536 →
      int16_to_uint8_inv (int16_of_word w)
        = 255 - int16_to_uint8 (int16_of_word w))
  ∧ (∀ (data : Buf) (len : Nat) (rpt : Report),
      (parse_xbox360 data len rpt).y
          = int16_to_uint8_inv (int16_of_le (data 8) (data 9))
      ∧ (parse_xbox360 data len rpt).rz
          = int16_to_uint8_inv (int16_of_le (data 12) (data 13))) := by
  refine ⟨by decide, by decide, by decide, by decide, ?_, ?_⟩
  · intro w hw
    unfold int16_to_uint8_inv int16_to_uint8 int16_of_word
    split <;> omega
  · intro data len rpt
    constructor <;>
      simp [parse_xbox360, parse_xbox360_buttons, parse_xbox360_dpad_buttons]

/-- C6 witness: the theorem applied at the word 0x1234 and at a concrete
buffer. -/
theorem C6_int16_axis_conversion_witness :
    int16_to_uint8_inv (int16_of_word 0x1234)
      = 255 - int16_to_uint8 (int16_of_word 0x1234)
  ∧ (parse_xbox360 (fun i => i) 20 zeroReport).y
      = int16_to_uint8_inv (int16_of_le 8 9) :=
  ⟨C6_int16_axis_conversion.2.2.2.2.1 0x1234 (by decide),
   (C6_int16_axis_conversion.2.2.2.2.2 (fun i => i) 20 zeroReport).1⟩

/-- C7: in the Xbox-360 decode (unidentified device, max-packet-size 32,
actual length 20), the dpad equals the low nibble of the hat/button byte
mapped by the fixed table 0x00→Released(8), 0x01→N(0), 0x09→NE(1),
0x08→E(2), 0x0A→SE(3), 0x02→S(4), 0x06→SW(5), 0x04→W(6), 0x05→NW(7),
and every nibble not in the table maps to Released. -/
theorem C7_xbox360_dpad_table (s : Registry) (dev_addr : Nat) (data : Buf)
    (rpt : Report) (hid : get_vid_pid dev_addr s = none) :
    tjuh_parse_report s dev_addr data 20 32 rpt tjuh_hint_t.HINT_NONE
      = some (parse_xbox360 data 20 rpt)
  ∧ (parse_xbox360 data 20 rpt).dpad = xbox360_dpad_table (data 2 % 16)
  ∧ xbox360_dpad_table 0x00 = 8 ∧ xbox360_dpad_table 0x01 = 0
  ∧ xbox360_dpad_table 0x09 = 1 ∧ xbox360_dpad_table 0x08 = 2
  ∧ xbox360_dpad_table 0x0A = 3 ∧ xbox360_dpad_table 0x02 = 4
  ∧ xbox360_dpad_table 0x06 = 5 ∧ xbox360_dpad_table 0x04 = 6
  ∧ xbox360_dpad_table 0x05 = 7
  ∧ (∀ n, n < 16 → n ≠ 0x00 → n ≠ 0x01 → n ≠ 0x09 → n ≠ 0x08 →
      n ≠ 0x0A → n ≠ 0x02 → n ≠ 0x06 → n ≠ 0x04 → n ≠ 0x05 →
      xbox360_dpad_table n = 8) := by
  refine ⟨?_, ?_, by decide, by decide, by decide, by decide, by decide,
    by decide, by decide, by decide, by decide, ?_⟩
  · simp [tjuh_parse_report, hid, parse_by_endpoint_size]
  · simp [parse_xbox360, parse_xbox360_buttons, parse_xbox360_dpad_buttons]
  · intro n hn h0 h1 h9 h8 hA h2 h6 h4 h5
    interval_cases n <;> simp_all [xbox360_dpad_table]

/-- C7 witness: the theorem applied to an unregistered slot and the
constant buffer 0x05. -/
theorem C7_xbox360_dpad_table_witness :
    tjuh_parse_report [] 1 (fun _ => 0x05) 20 32 zeroReport
      tjuh_hint_t.HINT_NONE
      = some (parse_xbox360 (fun _ => 0x05) 20 zeroReport)
  ∧ (parse_xbox360 (fun _ => 0x05) 20 zeroReport).dpad
      = xbox360_dpad_table (0x05 % 16) :=
  ⟨(C7_xbox360_dpad_table [] 1 (fun _ => 0x05) zeroReport (by decide)).1,
   (C7_xbox360_dpad_table [] 1 (fun _ => 0x05) zeroReport (by decide)).2.1⟩

/-- C2 counterexample: with hint SwitchPro, report ID 0x30 and actual
length 10 (insufficient for the full report, which needs 12), the
dispatcher does not return Unrecognized: it accepts the report and hands
back the caller's untouched zero report. -/
theorem C2_truncated_full_report_accepted :
    tjuh_parse_report [] 1 (fun _ => 0x30) 10 64 zeroReport
      tjuh_hint_t.HINT_SWITCH_PRO = some zeroReport := by
  decide

/-- C2 (amended): for every slot whose hint is SwitchPro, regardless of
its VID/PID, tjuh_parse_report dispatches on the first byte: actual
length < 8 yields Unrecognized; report ID 0x30 with actual length ≥ 12
yields the full Switch report; report ID 0x30 with actual length 8..11
is accepted but returns the caller's report unchanged; report ID 0x3F
with actual length ≥ 8 yields the simple Switch report; any other report
ID yields Unrecognized. -/
theorem C2_switch_hint_dispatch (s : Registry) (dev_addr : Nat)
    (data : Buf) (actual_len max_ep_size : Nat) (rpt : Report) :
    (actual_len < 8 →
      tjuh_parse_report s dev_addr data actual_len max_ep_size rpt
        tjuh_hint_t.HINT_SWITCH_PRO = none)
  ∧ (data 0 = 0x30 → 12 ≤ actual_len →
      tjuh_parse_report s dev_addr data actual_len max_ep_size rpt
        tjuh_hint_t.HINT_SWITCH_PRO
        = some (parse_switch_pro_full data actual_len rpt))
  ∧ (data 0 = 0x30 → 8 ≤ actual_len → actual_len < 12 →
      tjuh_parse_report s dev_addr data actual_len max_ep_size rpt
        tjuh_hint_t.HINT_SWITCH_PRO = some rpt)
  ∧ (data 0 = 0x3F → 8 ≤ actual_len →
      tjuh_parse_report s dev_addr data actual_len max_ep_size rpt
        tjuh_hint_t.HINT_SWITCH_PRO
        = some (parse_switch_pro_simple data actual_len rpt))
  ∧ (data 0 ≠ 0x30 → data 0 ≠ 0x3F →
      tjuh_parse_report s dev_addr data actual_len max_ep_size rpt
        tjuh_hint_t.HINT_SWITCH_PRO = none) := by
  refine ⟨?_, ?_, ?_, ?_, ?_⟩
  · intro hlt
    by_cases h0 : actual_len = 0
    · simp [tjuh_parse_report, h0]
    · simp [tjuh_parse_report, parse_switch, h0, hlt]
  · intro h30 h12
    have h0 : ¬(actual_len = 0) := by omega
    have hn8 : ¬(actual_len < 8) := by omega
    simp [tjuh_parse_report, parse_switch, h0, hn8, h30]
  · intro h30 h8 hlt12
    have h0 : ¬(actual_len = 0) := by omega
    have hn8 : ¬(actual_len < 8) := by omega
    simp [tjuh_parse_report, parse_switch, parse_switch_pro_full, h0, hn8,
      h30, hlt12]
  · intro h3F h8
    have h0 : ¬(actual_len = 0) := by omega
    have hn8 : ¬(actual_len < 8) := by omega
    simp [tjuh_parse_report, parse_switch, h0, hn8, h3F]
  · intro h30 h3F
    by_cases h0 : actual_len = 0
    · simp [tjuh_parse_report, h0]
    · by_cases hlt : actual_len < 8
      · simp [tjuh_parse_report, parse_switch, h0, hlt]
      · simp [tjuh_parse_report, parse_switch, h0, hlt, h30, h3F]

/-- C2 witness: the amended dispatch applied at concrete inputs for the
simple-report and truncated-full-report branches. -/
theorem C2_switch_hint_dispatch_witness :
    tjuh_parse_report [] 1 (fun _ => 0x3F) 8 64 zeroReport
      tjuh_hint_t.HINT_SWITCH_PRO
      = some (parse_switch_pro_simple (fun _ => 0x3F) 8 zeroReport)
  ∧ tjuh_parse_report [] 1 (fun _ => 0x30) 9 64 zeroReport
      tjuh_hint_t.HINT_SWITCH_PRO = some zeroReport :=
  ⟨(C2_switch_hint_dispatch [] 1 (fun _ => 0x3F) 8 64 zeroReport).2.2.2.1
      rfl (by decide),
   (C2_switch_hint_dispatch [] 1 (fun _ => 0x30) 9 64 zeroReport).2.2.1
      rfl (by decide) (by decide)⟩

/-- C1: the dispatcher is claimed never to read at or beyond
actual_length, but the DualSense path selected for a Sony DualSense slot
at actual_length 10 reads the byte at index 10: two buffers that agree on
every index below the declared length decode to different reports (their
system/extra bitmask bytes reproduce the out-of-range byte). -/
theorem C1_dualsense_reads_past_actual_length :
    (List.range 10).map c1buf1 = (List.range 10).map c1buf2
  ∧ (tjuh_parse_report c1reg 1 c1buf1 10 64 zeroReport
      tjuh_hint_t.HINT_NONE).map Report.extraButtonsByte = some 128
  ∧ (tjuh_parse_report c1reg 1 c1buf2 10 64 zeroReport
      tjuh_hint_t.HINT_NONE).map Report.extraButtonsByte = some 7 := by
  refine ⟨by decide, by decide, by decide⟩

/- Catch-all helper lemmas -/

lemma parse_by_endpoint_size_catch_all (data : Buf)
    (actual_len max_ep_size : Nat) (rpt : Report)
    (h1 : ¬(max_ep_size = 8 ∧ actual_len = 8))
    (h2 : ¬(max_ep_size = 8 ∧ actual_len = 3))
    (h3 : ¬(max_ep_size = 32 ∧ actual_len = 20)) :
    parse_by_endpoint_size data actual_len max_ep_size rpt
      = catch_all data actual_len max_ep_size rpt := by
  simp [parse_by_endpoint_size, h1, h2, h3]

lemma catch_all_accept (data : Buf) (actual_len max_ep_size : Nat)
    (rpt : Report) (hid1 : 0x01 ≤ data 0) (hid2 : data 0 ≤ 0x04)
    (hc : ∃ i, i < 4 ∧ 96 ≤ data (i + 1) ∧ data (i + 1) ≤ 160)
    (hlen : 9 ≤ actual_len) (hep : 8 ≤ max_ep_size) :
    catch_all data actual_len max_ep_size rpt
      = some (parse_sony_ds4 data actual_len rpt) := by
  obtain ⟨i, hi, h96, h160⟩ := hc
  have hle : 8 ≤ actual_len := by omega
  have hcent : any_centered data actual_len = true := by
    simp only [any_centered, List.any_eq_true, List.mem_range]
    exact ⟨i, hi, by simp [h96, h160]; omega⟩
  simp [catch_all, hle, hep, hid1, hid2, hcent, hlen]

lemma catch_all_reject (data : Buf) (actual_len max_ep_size : Nat)
    (rpt : Report)
    (h : actual_len < 9 ∨ data 0 < 0x01 ∨ 0x04 < data 0 ∨
      ∀ i, i < 4 → ¬(96 ≤ data (i + 1) ∧ data (i + 1) ≤ 160)) :
    catch_all data actual_len max_ep_size rpt = none := by
  unfold catch_all
  split_ifs with hA hB hC
  · exfalso
    rcases h with h | h | h | h
    · exact absurd hC.2 (by omega)
    · exact absurd hB.1 (by omega)
    · exact absurd hB.2 (by omega)
    · have hcent := hC.1
      simp only [any_centered, List.any_eq_true, List.mem_range] at hcent
      obtain ⟨i, hi, hrest⟩ := hcent
      simp only [Bool.and_eq_true, decide_eq_true_eq] at hrest
      exact h i hi ⟨hrest.1.2, hrest.2⟩
  · rfl
  · rfl
  · rfl

/-- C5: the catch-all classifier branch returns Unrecognized whenever
actual length < 9, or the first byte is outside 1..4, or none of the four
bytes following the first lies in [96,160]; when the first byte is in
1..4, some such byte is in [96,160], and actual length ≥ 9, it decodes
the buffer using the DualShock4 layout. -/
theorem C5_catch_all_filter (data : Buf) (actual_len max_ep_size : Nat)
    (rpt : Report)
    (h1 : ¬(max_ep_size = 8 ∧ actual_len = 8))
    (h2 : ¬(max_ep_size = 8 ∧ actual_len = 3))
    (h3 : ¬(max_ep_size = 32 ∧ actual_len = 20))
    (hep : 8 ≤ max_ep_size) :
    ((actual_len < 9 ∨ data 0 < 0x01 ∨ 0x04 < data 0 ∨
        ∀ i, i < 4 → ¬(96 ≤ data (i + 1) ∧ data (i + 1) ≤ 160)) →
      parse_by_endpoint_size data actual_len max_ep_size rpt = none)
  ∧ (0x01 ≤ data 0 → data 0 ≤ 0x04 →
      (∃ i, i < 4 ∧ 96 ≤ data (i + 1) ∧ data (i + 1) ≤ 160) →
      9 ≤ actual_len →
      parse_by_endpoint_size data actual_len max_ep_size rpt
        = some (parse_sony_ds4 data actual_len rpt)) := by
  constructor
  · intro h
    rw [parse_by_endpoint_size_catch_all data actual_len max_ep_size rpt
      h1 h2 h3]
    exact catch_all_reject data actual_len max_ep_size rpt h
  · intro hi1 hi2 hc hlen
    rw [parse_by_endpoint_size_catch_all data actual_len max_ep_size rpt
      h1 h2 h3]
    exact catch_all_accept data actual_len max_ep_size rpt hi1 hi2 hc
      hlen hep

/-- C5 witness: a 9-byte buffer with report ID 2 and near-center bytes on
a size-16 endpoint is decoded with the DualShock4 layout. -/
theorem C5_catch_all_filter_witness :
    parse_by_endpoint_size (fun i => if i = 0 then 2 else 128) 9 16
      zeroReport
      = some (parse_sony_ds4 (fun i => if i = 0 then 2 else 128) 9
          zeroReport) :=
  (C5_catch_all_filter (fun i => if i = 0 then 2 else 128) 9 16 zeroReport
      (by decide) (by decide) (by decide) (by decide)).2 (by decide)
    (by decide) ⟨0, by decide, by decide, by decide⟩ (by decide)

/-- C10: when neither a hint nor a known VID routes the report, a buffer
whose shape misses the size-specific cases (max-packet-size 8 with length
other than 3 or 8, or max-packet-size 32 with length other than 20) falls
through to the catch-all plausibility filter, and a buffer passing the
filter is decoded with the DualShock4 layout. -/
theorem C10_endpoint_size_fallthrough (s : Registry) (dev_addr : Nat)
    (data : Buf) (actual_len max_ep_size : Nat) (rpt : Report)
    (hid : ∀ v p, get_vid_pid dev_addr s = some (v, p) →
      v ≠ VID_SONY ∧ v ≠ VID_NINTENDO)
    (hshape : (max_ep_size = 8 ∧ actual_len ≠ 3 ∧ actual_len ≠ 8)
            ∨ (max_ep_size = 32 ∧ actual_len ≠ 20)) :
    tjuh_parse_report s dev_addr data actual_len max_ep_size rpt
      tjuh_hint_t.HINT_NONE
      = catch_all data actual_len max_ep_size rpt
  ∧ (0x01 ≤ data 0 → data 0 ≤ 0x04 →
      (∃ i, i < 4 ∧ 96 ≤ data (i + 1) ∧ data (i + 1) ≤ 160) →
      9 ≤ actual_len →
      tjuh_parse_report s dev_addr data actual_len max_ep_size rpt
        tjuh_hint_t.HINT_NONE
        = some (parse_sony_ds4 data actual_len rpt)) := by
  have h1 : ¬(max_ep_size = 8 ∧ actual_len = 8) := by omega
  have h2 : ¬(max_ep_size = 8 ∧ actual_len = 3) := by omega
  have h3 : ¬(max_ep_size = 32 ∧ actual_len = 20) := by omega
  have hep : 8 ≤ max_ep_size := by omega
  have hmain : tjuh_parse_report s dev_addr data actual_len max_ep_size rpt
      tjuh_hint_t.HINT_NONE = catch_all data actual_len max_ep_size rpt := by
    by_cases h0 : actual_len = 0
    · subst h0
      simp [tjuh_parse_report, catch_all]
    · rcases hgv : get_vid_pid dev_addr s with _ | ⟨v, p⟩
      · simp only [tjuh_parse_report, h0, if_false, hgv]
        simp only [show (tjuh_hint_t.HINT_NONE = tjuh_hint_t.HINT_XBOX_ONE)
            = False by simp, show (tjuh_hint_t.HINT_NONE
            = tjuh_hint_t.HINT_SWITCH_PRO) = False by simp, if_false]
        exact parse_by_endpoint_size_catch_all data actual_len max_ep_size
          rpt h1 h2 h3
      · obtain ⟨hv1, hv2⟩ := hid v p hgv
        simp only [tjuh_parse_report, h0, if_false, hgv]
        simp only [show (tjuh_hint_t.HINT_NONE = tjuh_hint_t.HINT_XBOX_ONE)
            = False by simp, show (tjuh_hint_t.HINT_NONE
            = tjuh_hint_t.HINT_SWITCH_PRO) = False by simp, if_false]
        simp only [hv1, hv2, if_false]
        exact parse_by_endpoint_size_catch_all data actual_len max_ep_size
          rpt h1 h2 h3
  refine ⟨hmain, ?_⟩
  intro hi1 hi2 hc hlen
  rw [hmain]
  exact catch_all_accept data actual_len max_ep_size rpt hi1 hi2 hc hlen hep

/-- C10 witness: an unregistered slot with max-packet-size 32 and a
9-byte plausible buffer is decoded with the DualShock4 layout. -/
theorem C10_endpoint_size_fallthrough_witness :
    tjuh_parse_report [] 1 (fun i => if i = 0 then 1 else 128) 9 32
      zeroReport tjuh_hint_t.HINT_NONE
      = some (parse_sony_ds4 (fun i => if i = 0 then 1 else 128) 9
          zeroReport) :=
  (C10_endpoint_size_fallthrough [] 1 (fun i => if i = 0 then 1 else 128)
      9 32 zeroReport
      (fun v p h => by simp [get_vid_pid, emptyEntry] at h)
      (Or.inr (by decide))).2 (by decide) (by decide)
    ⟨0, by decide, by decide, by decide⟩ (by decide)

/- DualSense / DualShock 4 field lemmas -/

lemma parse_sony_dualsense_fields (data : Buf) (len : Nat) (rpt : Report)
    (h8 : data 8 < 256) (h9 : data 9 < 256) (h10 : data 10 < 256) :
    (parse_sony_dualsense data len rpt).x = data 1
  ∧ (parse_sony_dualsense data len rpt).y = data 2
  ∧ (parse_sony_dualsense data len rpt).z = data 3
  ∧ (parse_sony_dualsense data len rpt).rz = data 4
  ∧ (parse_sony_dualsense data len rpt).dpadButtonsByte = data 8
  ∧ (parse_sony_dualsense data len rpt).triggerButtonsByte = data 9
  ∧ (parse_sony_dualsense data len rpt).extraButtonsByte = data 10 := by
  unfold parse_sony_dualsense Report.withDpadButtonsByte
    Report.withTriggerButtonsByte Report.withExtraButtonsByte
  refine ⟨rfl, rfl, rfl, rfl, ?_, ?_, ?_⟩
  · simpa [Report.dpadButtonsByte] using recompose_dpad_byte (data 8) h8
  · simpa [Report.triggerButtonsByte] using
      recompose_trigger_byte (data 9) h9
  · simpa [Report.extraButtonsByte] using recompose_extra_byte (data 10) h10

lemma parse_sony_ds4_fields (data : Buf) (len : Nat) (rpt : Report)
    (h5 : data 5 < 256) (h6 : data 6 < 256) (h7 : data 7 < 256) :
    (parse_sony_ds4 data len rpt).x = data 1
  ∧ (parse_sony_ds4 data len rpt).y = data 2
  ∧ (parse_sony_ds4 data len rpt).z = data 3
  ∧ (parse_sony_ds4 data len rpt).rz = data 4
  ∧ (parse_sony_ds4 data len rpt).dpadButtonsByte = data 5
  ∧ (parse_sony_ds4 data len rpt).triggerButtonsByte = data 6
  ∧ (parse_sony_ds4 data len rpt).extraButtonsByte = data 7
  ∧ (parse_sony_ds4 data len rpt).reservedByte = data 8 := by
  unfold parse_sony_ds4 Report.withDpadButtonsByte
    Report.withTriggerButtonsByte Report.withExtraButtonsByte
  refine ⟨rfl, rfl, rfl, rfl, ?_, ?_, ?_, rfl⟩
  · simpa [Report.dpadButtonsByte] using recompose_dpad_byte (data 5) h5
  · simpa [Report.triggerButtonsByte] using
      recompose_trigger_byte (data 6) h6
  · simpa [Report.extraButtonsByte] using recompose_extra_byte (data 7) h7

/-- C4: for every slot with no hint whose registered VID is Sony: a first
byte other than 0x01 or an actual length below 10 yields Unrecognized;
PIDs DualSense and DualSense Edge use the DualSense layout (axes from
bytes 1-4, then after skipping 2 analog-trigger bytes and 1 timestamp
byte, bytes 8, 9, 10 become the dpad+face-button, shoulder/stick-click
and system/extra bitmask bytes); any other Sony PID uses the DualShock4
layout (all report bytes copied byte-for-byte starting after the
report-ID byte). -/
theorem C4_sony_identity_routing (s : Registry) (dev_addr pid : Nat)
    (data : Buf) (actual_len max_ep_size : Nat) (rpt : Report)
    (ha1 : 1 ≤ dev_addr) (ha2 : dev_addr ≤ TJUH_MAX_DEVICES)
    (hvid : (s.getD (dev_addr - 1) emptyEntry).vid = VID_SONY)
    (hpid : (s.getD (dev_addr - 1) emptyEntry).pid = pid)
    (hb : ByteBufUpTo data 10) :
    ((data 0 ≠ 0x01 ∨ actual_len < 10) →
      tjuh_parse_report s dev_addr data actual_len max_ep_size rpt
        tjuh_hint_t.HINT_NONE = none)
  ∧ (data 0 = 0x01 → 10 ≤ actual_len →
      (pid = PID_DUALSENSE ∨ pid = PID_DUALSENSE_EDGE) →
      ∃ r, tjuh_parse_report s dev_addr data actual_len max_ep_size rpt
          tjuh_hint_t.HINT_NONE = some r
        ∧ r.x = data 1 ∧ r.y = data 2 ∧ r.z = data 3 ∧ r.rz = data 4
        ∧ r.dpadButtonsByte = data 8 ∧ r.triggerButtonsByte = data 9
        ∧ r.extraButtonsByte = data 10)
  ∧ (data 0 = 0x01 → 10 ≤ actual_len →
      pid ≠ PID_DUALSENSE → pid ≠ PID_DUALSENSE_EDGE →
      ∃ r, tjuh_parse_report s dev_addr data actual_len max_ep_size rpt
          tjuh_hint_t.HINT_NONE = some r
        ∧ r.x = data 1 ∧ r.y = data 2 ∧ r.z = data 3 ∧ r.rz = data 4
        ∧ r.dpadButtonsByte = data 5 ∧ r.triggerButtonsByte = data 6
        ∧ r.extraButtonsByte = data 7 ∧ r.reservedByte = data 8) := by
  have hgv : get_vid_pid dev_addr s = some (VID_SONY, pid) := by
    have hz : ¬(dev_addr = 0 ∨ dev_addr > TJUH_MAX_DEVICES) := by omega
    unfold get_vid_pid
    rw [if_neg hz, hvid, hpid]
    simp [VID_SONY]
  refine ⟨?_, ?_, ?_⟩
  · intro h
    by_cases h0 : actual_len = 0
    · simp [tjuh_parse_report, h0]
    · have hg : actual_len < 10 ∨ data 0 ≠ 0x01 := by tauto
      simp [tjuh_parse_report, h0, hgv, parse_sony, hg]
  · intro h01 h10 hpd
    have h0 : ¬(actual_len = 0) := by omega
    have hng : ¬(actual_len < 10 ∨ data 0 ≠ 0x01) := by
      simp [h01]; omega
    refine ⟨parse_sony_dualsense data actual_len rpt, ?_, ?_, ?_, ?_, ?_,
      ?_, ?_, ?_⟩
    · simp [tjuh_parse_report, h0, hgv, parse_sony, hng, hpd]
    all_goals
      have hf := parse_sony_dualsense_fields data actual_len rpt
        (hb 8 (by omega)) (hb 9 (by omega)) (hb 10 (by omega))
      tauto
  · intro h01 h10 hp1 hp2
    have h0 : ¬(actual_len = 0) := by omega
    have hng : ¬(actual_len < 10 ∨ data 0 ≠ 0x01) := by
      simp [h01]; omega
    have hnp : ¬(pid = PID_DUALSENSE ∨ pid = PID_DUALSENSE_EDGE) := by
      tauto
    refine ⟨parse_sony_ds4 data actual_len rpt, ?_, ?_, ?_, ?_, ?_, ?_, ?_,
      ?_, ?_⟩
    · simp [tjuh_parse_report, h0, hgv, parse_sony, hng, hnp]
    all_goals
      have hf := parse_sony_ds4_fields data actual_len rpt
        (hb 5 (by omega)) (hb 6 (by omega)) (hb 7 (by omega))
      tauto

/-- C4 witness: a registered DualSense at address 1 decoding a 12-byte
near-center report. -/
theorem C4_sony_identity_routing_witness :
    ByteBufUpTo c1buf1 10
  ∧ (∃ r, tjuh_parse_report c1reg 1 c1buf1 12 64 zeroReport
        tjuh_hint_t.HINT_NONE = some r
      ∧ r.x = c1buf1 1 ∧ r.y = c1buf1 2 ∧ r.z = c1buf1 3 ∧ r.rz = c1buf1 4
      ∧ r.dpadButtonsByte = c1buf1 8 ∧ r.triggerButtonsByte = c1buf1 9
      ∧ r.extraButtonsByte = c1buf1 10) :=
  ⟨by decide,
   (C4_sony_identity_routing c1reg 1 PID_DUALSENSE c1buf1 12 64 zeroReport
      (by decide) (by decide) (by decide) (by decide) (by decide)).2.1
     (by decide) (by decide) (Or.inl rfl)⟩

/- Registry helper -/

lemma getD_set_self (l : List DevEntry) (n : Nat) (e : DevEntry)
    (h : n < l.length) : (l.set n e).getD n emptyEntry = e := by
  induction l generalizing n with
  | nil => simp at h
  | cons a t ih =>
    cases n with
    | zero => rfl
    | succ m =>
      simpa [List.getD_cons_succ] using ih m (by simpa using h)

/-- C8: init_device succeeds exactly for addresses 1..MaxDevices and is
idempotent (repeating the call leaves the registry unchanged);
free_device with an out-of-range address reports failure without touching
any entry; get_identity returns NotFound exactly when the address is out
of range or the stored VID is the sentinel 0, and otherwise returns the
stored (vid, pid); initialising a slot stores exactly the given
identity. -/
theorem C8_registry_contract (dev_addr vid pid : Nat) (s : Registry) :
    ((tjuh_parse_init_device dev_addr vid pid s).1 = true ↔
      1 ≤ dev_addr ∧ dev_addr ≤ TJUH_MAX_DEVICES)
  ∧ (tjuh_parse_init_device dev_addr vid pid
        (tjuh_parse_init_device dev_addr vid pid s).2
      = tjuh_parse_init_device dev_addr vid pid s)
  ∧ (dev_addr = 0 ∨ dev_addr > TJUH_MAX_DEVICES →
      tjuh_parse_free_device dev_addr s = (false, s))
  ∧ (tjuh_parse_get_vid_pid dev_addr s = none ↔
      dev_addr = 0 ∨ dev_addr > TJUH_MAX_DEVICES ∨
        (s.getD (dev_addr - 1) emptyEntry).vid = 0)
  ∧ (1 ≤ dev_addr → dev_addr ≤ TJUH_MAX_DEVICES →
      (s.getD (dev_addr - 1) emptyEntry).vid ≠ 0 →
      tjuh_parse_get_vid_pid dev_addr s
        = some ((s.getD (dev_addr - 1) emptyEntry).vid,
                (s.getD (dev_addr - 1) emptyEntry).pid))
  ∧ (1 ≤ dev_addr → dev_addr ≤ TJUH_MAX_DEVICES →
      dev_addr - 1 < s.length →
      ((tjuh_parse_init_device dev_addr vid pid s).2.getD (dev_addr - 1)
          emptyEntry)
        = ⟨dev_addr, vid, pid⟩) := by
  by_cases h : dev_addr = 0 ∨ dev_addr > TJUH_MAX_DEVICES
  · refine ⟨?_, ?_, fun _ => ?_, ?_, ?_, ?_⟩
    · simp [tjuh_parse_init_device, h]
      omega
    · simp [tjuh_parse_init_device, h]
    · simp [tjuh_parse_free_device, h]
    · simp [tjuh_parse_get_vid_pid, h]
      tauto
    · intro h1 h2 _
      exact absurd h (by omega)
    · intro h1 h2 _
      exact absurd h (by omega)
  · refine ⟨?_, ?_, fun hh => absurd hh h, ?_, ?_, ?_⟩
    · simp [tjuh_parse_init_device, h]
      omega
    · simp [tjuh_parse_init_device, h, List.set_set]
    · by_cases hv : (s.getD (dev_addr - 1) emptyEntry).vid = 0
      · simp [tjuh_parse_get_vid_pid, h, hv]
        tauto
      · simp [tjuh_parse_get_vid_pid, h, hv]
        tauto
    · intro _ _ hv
      rw [List.getD_eq_getElem?_getD] at hv
      simp [tjuh_parse_get_vid_pid, h, hv]
    · intro _ _ hlen
      simp only [tjuh_parse_init_device, h, if_false]
      exact getD_set_self s (dev_addr - 1) ⟨dev_addr, vid, pid⟩ hlen

/-- C8 witness: the contract applied at concrete registry states. -/
theorem C8_registry_contract_witness :
    tjuh_parse_free_device 0 [] = (false, [])
  ∧ tjuh_parse_get_vid_pid 2 c1reg = none
  ∧ tjuh_parse_get_vid_pid 1 c1reg = some (VID_SONY, PID_DUALSENSE)
  ∧ (tjuh_parse_init_device 2 0x057E 0x2009 c1reg).2.getD 1 emptyEntry
      = ⟨2, 0x057E, 0x2009⟩ :=
  ⟨(C8_registry_contract 0 0 0 []).2.2.1 (Or.inl rfl),
   (C8_registry_contract 2 0 0 c1reg).2.2.2.1.mpr
     (Or.inr (Or.inr (by decide))),
   ((C8_registry_contract 1 0 0 c1reg).2.2.2.2.1 (by decide) (by decide)
       (by decide)).trans (by decide),
   (C8_registry_contract 2 0x057E 0x2009 c1reg).2.2.2.2.2 (by decide)
     (by decide) (by decide)⟩

/- Buffer pool helpers -/

lemma buf_pool_alloc_full (dev_addr : Nat) (pool : List Nat)
    (h : ∀ o ∈ pool, o ≠ 0) :
    buf_pool_alloc dev_addr pool = (none, pool) := by
  induction pool with
  | nil => rfl
  | cons o rest ih =>
    have ho : ¬(o = 0) := h o (List.mem_cons_self o rest)
    have ih' := ih (fun o' ho' => h o' (List.mem_cons_of_mem o ho'))
    simp [buf_pool_alloc, ho, ih']

lemma buf_pool_alloc_least (dev_addr : Nat) (pool : List Nat) (j : Nat)
    (hlt : j < pool.length) (hj : pool.getD j 1 = 0)
    (hmin : ∀ k, k < j → pool.getD k 1 ≠ 0) :
    buf_pool_alloc dev_addr pool = (some j, pool.set j dev_addr) := by
  induction pool generalizing j with
  | nil => simp at hlt
  | cons o rest ih =>
    cases j with
    | zero =>
      have ho : o = 0 := by simpa using hj
      simp [buf_pool_alloc, ho]
    | succ m =>
      have ho : ¬(o = 0) := by simpa using hmin 0 (Nat.succ_pos m)
      have ih' := ih m (by simpa using hlt) (by simpa using hj)
        (fun k hk => by simpa using hmin (k + 1) (by omega))
      simp [buf_pool_alloc, ho, ih']

lemma buf_pool_free_getD (dev_addr : Nat) (pool : List Nat) (i : Nat)
    (h : i < pool.length) :
    (buf_pool_free dev_addr pool).getD i 1
      = if pool.getD i 1 = dev_addr then 0 else pool.getD i 1 := by
  induction pool generalizing i with
  | nil => simp at h
  | cons o rest ih =>
    cases i with
    | zero => simp [buf_pool_free]
    | succ m =>
      simpa [buf_pool_free, List.getD_cons_succ] using
        ih m (by simpa using h)

lemma buf_pool_free_noop (dev_addr : Nat) (pool : List Nat)
    (h : dev_addr ∉ pool) : buf_pool_free dev_addr pool = pool := by
  induction pool with
  | nil => rfl
  | cons o rest ih =>
    have ho : ¬(o = dev_addr) :=
      fun he => h (he ▸ List.mem_cons_self o rest)
    have ih' := ih (fun hm => h (List.mem_cons_of_mem o hm))
    simp only [buf_pool_free] at ih' ⊢
    simp [ho, ih']

/-- C9: alloc assigns and returns the lowest-indexed buffer with no
owner, and fails when every buffer is owned (so the pool-size+1-th
allocation fails); free clears ownership of every buffer owned by the
given address and leaves every other entry unchanged; freeing an address
that owns no buffer leaves every ownership entry unchanged. -/
theorem C9_buf_pool_contract (dev_addr : Nat) (pool : List Nat) :
    ((∀ o ∈ pool, o ≠ 0) → buf_pool_alloc dev_addr pool = (none, pool))
  ∧ (∀ j, j < pool.length → pool.getD j 1 = 0 →
      (∀ k, k < j → pool.getD k 1 ≠ 0) →
      buf_pool_alloc dev_addr pool = (some j, pool.set j dev_addr))
  ∧ (∀ i, i < pool.length →
      (buf_pool_free dev_addr pool).getD i 1
        = if pool.getD i 1 = dev_addr then 0 else pool.getD i 1)
  ∧ (dev_addr ∉ pool → buf_pool_free dev_addr pool = pool) :=
  ⟨buf_pool_alloc_full dev_addr pool,
   fun j hlt hj hmin => buf_pool_alloc_least dev_addr pool j hlt hj hmin,
   fun i hi => buf_pool_free_getD dev_addr pool i hi,
   buf_pool_free_noop dev_addr pool⟩

/-- C9 witness: on the 4-buffer pool, a fifth allocation fails once all
four are owned, allocation picks the first free slot, freeing an unknown
address is a no-op, and freeing clears every buffer of an owner. -/
theorem C9_buf_pool_contract_witness :
    buf_pool_alloc 5 [1, 2, 3, 4] = (none, [1, 2, 3, 4])
  ∧ buf_pool_alloc 2 [1, 0, 0, 0] = (some 1, [1, 2, 0, 0])
  ∧ buf_pool_free 7 [1, 2, 3, 4] = [1, 2, 3, 4]
  ∧ (buf_pool_free 2 [2, 1, 2, 0]).getD 0 1 = 0 :=
  ⟨(C9_buf_pool_contract 5 [1, 2, 3, 4]).1 (by decide),
   (C9_buf_pool_contract 2 [1, 0, 0, 0]).2.1 1 (by decide) (by decide)
     (fun k hk => by interval_cases k; decide),
   (C9_buf_pool_contract 7 [1, 2, 3, 4]).2.2.2 (by decide),
   ((C9_buf_pool_contract 2 [2, 1, 2, 0]).2.2.1 0 (by decide)).trans
     (by decide)⟩
